import Mathlib

/-!
Verification of the List4Free chatbot conversation core.

The definitions below are a shallow embedding of the repository's
conversation state machine.  The canonical machine is the final widget
revision (`src/unnamed/part_002`, the `ChatWidget` revision with the
one-shot completion latch `hasCompletedRef`) together with the shared
utility module `src/chatbot-frontend/src/utils/conversationState.js`.
Where a claim concerns a branch that exists only in another revision
(`src/chatbot-frontend/src/components/ChatWidget.js`), that revision's
case is embedded separately under a `cw` prefix.

JavaScript values are modelled as follows: nullable numbers are
`Option Nat` (every number reaching these paths is a result of
`parseInt` on a digit run), nullable strings are `Option String`,
nullable booleans are `Option Bool`; JavaScript truthiness of each is
made explicit (`0`, `""`, `false` and `null` are falsy).
-/

namespace List4Free

/-- Characters matched by the regex class `\s` (ASCII fragment; the
inputs handled by the widget are ASCII). -/
def isJsSpace (c : Char) : Bool :=
  c = ' ' || c = '\t' || c = '\n' || c = '\r' || c = '\x0b' || c = '\x0c'

/-- Lower-casing of a single character (ASCII fragment). -/
def jsCharLower (c : Char) : Char :=
  if 'A' ≤ c ∧ c ≤ 'Z' then Char.ofNat (c.toNat + 32) else c

/-- Model of `String.prototype.toLowerCase` (ASCII fragment). -/
def jsToLower (s : String) : String :=
  String.mk (s.data.map jsCharLower)

/-- Does `pre` occur at the head of `l`? -/
def listStartsWith : List Char → List Char → Bool
  | [], _ => true
  | _ :: _, [] => false
  | p :: ps, c :: cs => p = c && listStartsWith ps cs

/-- Does `needle` occur somewhere in `l`? -/
def listContains (needle : List Char) : List Char → Bool
  | [] => needle = []
  | c :: cs => listStartsWith needle (c :: cs) || listContains needle cs

/-- Model of `haystack.includes(needle)`. -/
def jsIncludes (hay needle : String) : Bool :=
  listContains needle.data hay.data

/-- Maximal digit run at the head of the character list (`\d+`, greedy). -/
def digitsPrefix (cs : List Char) : List Char :=
  cs.takeWhile Char.isDigit

/-- `parseInt` on a non-empty digit run. -/
def parseDigits (ds : List Char) : Nat :=
  ds.foldl (fun a c => a * 10 + (c.toNat - 48)) 0

/-- Try to match `min(?:imum)?\s*(\d+)` at the head of `cs`, returning
the captured number.  The optional `imum` is consumed greedily; if it is
present the next character is `i`, which can satisfy neither `\s*` nor
`\d+`, so no backtracking is ever needed. -/
def matchMinAt (cs : List Char) : Option Nat :=
  if cs.take 3 = ['m', 'i', 'n'] then
    let r1 := cs.drop 3
    let r2 := if r1.take 4 = ['i', 'm', 'u', 'm'] then r1.drop 4 else r1
    let r3 := r2.dropWhile isJsSpace
    let ds := digitsPrefix r3
    if ds = [] then none else some (parseDigits ds)
  else none

/-- Try to match `max(?:imum)?\s*(\d+)` at the head of `cs`. -/
def matchMaxAt (cs : List Char) : Option Nat :=
  if cs.take 3 = ['m', 'a', 'x'] then
    let r1 := cs.drop 3
    let r2 := if r1.take 4 = ['i', 'm', 'u', 'm'] then r1.drop 4 else r1
    let r3 := r2.dropWhile isJsSpace
    let ds := digitsPrefix r3
    if ds = [] then none else some (parseDigits ds)
  else none

/-- Try to match `(\d+)\s*(?:-|to)\s*(\d+)` at the head of `cs`.  The
leading `\d+` is maximal; a shorter run would leave a digit in front of
`\s*(?:-|to)`, which cannot match, so the greedy run is the only
candidate. -/
def matchRangeAt (cs : List Char) : Option (Nat × Nat) :=
  let ds := digitsPrefix cs
  if ds = [] then none
  else
    let r1 := (cs.drop ds.length).dropWhile isJsSpace
    let r2 :=
      if r1.take 1 = ['-'] then some (r1.drop 1)
      else if r1.take 2 = ['t', 'o'] then some (r1.drop 2)
      else none
    match r2 with
    | none => none
    | some r3 =>
      let r4 := r3.dropWhile isJsSpace
      let ds2 := digitsPrefix r4
      if ds2 = [] then none else some (parseDigits ds, parseDigits ds2)

/-- `text.match(/min(?:imum)?\s*(\d+)/i)` on lower-cased text: the
leftmost match wins. -/
def scanMin : List Char → Option Nat
  | [] => none
  | c :: cs =>
    match matchMinAt (c :: cs) with
    | some n => some n
    | none => scanMin cs

/-- `text.match(/max(?:imum)?\s*(\d+)/i)` on lower-cased text. -/
def scanMax : List Char → Option Nat
  | [] => none
  | c :: cs =>
    match matchMaxAt (c :: cs) with
    | some n => some n
    | none => scanMax cs

/-- `text.match(/(\d+)\s*(?:-|to)\s*(\d+)/)`. -/
def scanRange : List Char → Option (Nat × Nat)
  | [] => none
  | c :: cs =>
    match matchRangeAt (c :: cs) with
    | some p => some p
    | none => scanRange cs

/-- `text.match(/^(\d+)$/)`: the whole string is a non-empty digit run. -/
def matchSingleNumber (cs : List Char) : Option Nat :=
  if cs ≠ [] ∧ cs.all Char.isDigit then some (parseDigits cs) else none

/-- A `{min,max}` bedroom pair, both fields nullable. -/
structure BedroomRange where
  min : Option Nat
  max : Option Nat
deriving DecidableEq, Repr

/-- `extractBedroomNumbers` from `conversationState.js` (lines 148-180).
The two `if (text.includes('no min') ...)` lines of the source assign
`null` to locals that are still `null`, so they are no-ops and the
suppression of a matched pattern happens only through the guards
`!text.includes('no min')` / `!text.includes('no max')` below. -/
def extractBedroomNumbers (input : String) : BedroomRange :=
  let text := jsToLower input
  let cs := text.data
  if jsIncludes text "studio" then ⟨some 0, some 0⟩
  else
    let minMatch := scanMin cs
    let maxMatch := scanMax cs
    let rangeMatch := scanRange cs
    let singleNumber := matchSingleNumber cs
    let min1 : Option Nat :=
      if minMatch.isSome ∧ ¬ jsIncludes text "no min" then minMatch else none
    let max1 : Option Nat :=
      if maxMatch.isSome ∧ ¬ jsIncludes text "no max" then maxMatch else none
    let min2 := match rangeMatch with | some (a, _) => some a | none => min1
    let max2 := match rangeMatch with | some (_, b) => some b | none => max1
    match singleNumber with
    | some n => ⟨some n, some n⟩
    | none => ⟨min2, max2⟩

/-- JavaScript truthiness of a nullable number: `null` and `0` are falsy. -/
def jsTruthyNat : Option Nat → Bool
  | none => false
  | some n => n ≠ 0

/-- JavaScript truthiness of a nullable string: `null` and `""` are falsy. -/
def jsTruthyStr : Option String → Bool
  | none => false
  | some s => s ≠ ""

/-- The string a template literal produces for a nullable number
(`null` prints as `"null"`). -/
def jsNumToStr : Option Nat → String
  | none => "null"
  | some n => toString n

/-- Group a digit string with commas every three digits, as
`Number.prototype.toLocaleString` does for en-GB. -/
def chunk3 : List Char → List (List Char)
  | a :: b :: c :: rest@(_ :: _) => [a, b, c] :: chunk3 rest
  | l => [l]

/-- Model of `n.toLocaleString()` for a natural number. -/
def jsLocaleString (n : Nat) : String :=
  let rev := (toString n).data.reverse
  String.intercalate "," (((chunk3 rev).map (fun l => String.mk l.reverse)).reverse)

/-- `formatPrice` from `conversationState.js` (lines 74-79); the `if (min
&& max)` tests are JavaScript truthiness. -/
def formatPrice (min max : Option Nat) : Option String :=
  if jsTruthyNat min ∧ jsTruthyNat max then
    some ("between £" ++ jsLocaleString (min.getD 0) ++ " and £" ++ jsLocaleString (max.getD 0))
  else if jsTruthyNat min then some ("from £" ++ jsLocaleString (min.getD 0))
  else if jsTruthyNat max then some ("up to £" ++ jsLocaleString (max.getD 0))
  else none

/-- `formatBedrooms` from `conversationState.js` (lines 82-89).  The
first two tests use strict equality (`===`); the remaining guards use
truthiness, so a bound equal to `0` behaves like an unset bound there. -/
def formatBedrooms (min max : Option Nat) : Option String :=
  if min = none ∧ max = none then none
  else if min = max then some (jsNumToStr min)
  else if jsTruthyNat min ∧ jsTruthyNat max then
    some (jsNumToStr min ++ "-" ++ jsNumToStr max)
  else if jsTruthyNat min then some (jsNumToStr min ++ "+")
  else if jsTruthyNat max then some ("up to " ++ jsNumToStr max)
  else none

/-- The flattened top-level labels of `PROPERTY_TYPES`
(`Object.values(PROPERTY_TYPES).map(type => string ? type : type.label)`). -/
def propertyTypeLabels : List String :=
  ["Land", "Residential", "Commercial", "Leisure"]

/-- The `RESIDENTIAL.subtypes` list of `PROPERTY_TYPES`. -/
def residentialSubtypes : List String :=
  ["Studio", "Flat", "Detached House", "Villa", "Luxury"]

/-- `TIMELINE_OPTIONS` from `conversationState.js`. -/
def timelineOptions : List String :=
  ["ASAP", "1-3 months", "3-6 months", "Not sure yet"]

/-- The `CONVERSATION_STATES` enumeration. -/
inductive ConvStep where
  | INITIAL
  | CONFIRM_FILTERS
  | EDIT_LOCATION
  | PROPERTY_TYPE
  | BEDROOMS
  | PUBLIC_TRANSPORT
  | SCHOOLS
  | TIMELINE
  | FINANCIAL_READINESS
  | EMAIL_REQUEST
  | COMPLETED
deriving DecidableEq, Repr

/-- A nullable `{min,max}` price pair. -/
structure PriceRange where
  min : Option Nat
  max : Option Nat
deriving DecidableEq, Repr

/-- The `filters` record of the conversation state. -/
structure Filters where
  location : Option String
  propertyType : Option String
  propertySubtype : Option String
  bedrooms : BedroomRange
  price : PriceRange
  existingFilters : Bool
deriving DecidableEq, Repr

/-- The `preferences` record of the conversation state. -/
structure Preferences where
  publicTransport : Option Bool
  schools : Option Bool
  timeline : Option String
  hasPreApprovedLoan : Option Bool
deriving DecidableEq, Repr

/-- The reducer-held conversation state, together with the component's
`hasCompletedRef` one-shot completion latch (a ref living beside the
reducer state for the lifetime of the session). -/
structure ConvState where
  currentState : ConvStep
  filters : Filters
  preferences : Preferences
  userEmail : Option String
  hasCompleted : Bool
deriving DecidableEq, Repr

/-- `initialState` from `conversationState.js` (lines 38-61); note that
`existingFilters` starts as `true` there.  The `hasCompletedRef` latch
starts unset. -/
def initialState : ConvState :=
  { currentState := .INITIAL
    filters :=
      { location := none, propertyType := none, propertySubtype := none
        bedrooms := ⟨none, none⟩, price := ⟨none, none⟩, existingFilters := true }
    preferences :=
      { publicTransport := none, schools := none, timeline := none, hasPreApprovedLoan := none }
    userEmail := none
    hasCompleted := false }

/-- `createInitialStateWithFilters`: the seed criteria are spread over
the initial filters and `existingFilters` is then overwritten with
`true`, so whatever filter record the spread produces, the constructor
yields it with `existingFilters := true`. -/
def createInitialStateWithFilters (f : Filters) : ConvState :=
  { initialState with filters := { f with existingFilters := true } }

/-- `isResidentialProperty` from `conversationState.js` (lines 92-96). -/
def isResidentialProperty (propertyType propertySubtype : Option String) : Bool :=
  if propertyType = some "Residential" then true
  else if jsTruthyStr propertySubtype ∧ (propertySubtype.getD "") ∈ residentialSubtypes then true
  else false

/-- The `Object.values(filters).every(...)` guard at the head of
`generateConfirmationMessage`.  `Object.values` also yields the boolean
`existingFilters`, which is neither `null` nor an object, so the `every`
is false whenever that key is present — recorded here as the final
`&& false` conjunct. -/
def filtersAllNullish (f : Filters) : Bool :=
  f.location = none && f.propertyType = none && f.propertySubtype = none &&
    (f.bedrooms.min = none && f.bedrooms.max = none) &&
    (f.price.min = none && f.price.max = none) && false

/-- `generateConfirmationMessage` from `conversationState.js`
(lines 99-146). -/
def generateConfirmationMessage (f : Filters) : Option String :=
  if filtersAllNullish f then none
  else
    let parts1 : List String := ["looking for"]
    let parts2 : List String :=
      if f.propertySubtype = some "Studio" then parts1 ++ ["studio flats"]
      else
        let d1 : List String :=
          if isResidentialProperty f.propertyType f.propertySubtype ∧
              f.propertySubtype ≠ some "Studio" then
            match formatBedrooms f.bedrooms.min f.bedrooms.max with
            | some t => [t ++ " bedroom"]
            | none => []
          else []
        let d2 : List String :=
          d1 ++ [if jsTruthyStr f.propertySubtype then jsToLower (f.propertySubtype.getD "")
                 else if jsTruthyStr f.propertyType then
                   jsToLower (f.propertyType.getD "") ++ " properties"
                 else "properties"]
        parts1 ++ [String.intercalate " " d2]
    let parts3 : List String :=
      parts2 ++ (if jsTruthyStr f.location then ["in " ++ f.location.getD ""] else [])
    let parts4 : List String :=
      parts3 ++ (match formatPrice f.price.min f.price.max with
                 | some t => [t]
                 | none => [])
    some ("Just to confirm, you\x27re " ++ String.intercalate " " parts4 ++
      "? Do you want to refine these details?")

/-- `x || null` on a nullable string: `""` collapses to `null`. -/
def jsOrNullStr : Option String → Option String
  | none => none
  | some s => if s = "" then none else some s

/-- `x || null` on a nullable number: `0` collapses to `null`. -/
def jsOrNullNat : Option Nat → Option Nat
  | none => none
  | some n => if n = 0 then none else some n

/-- `x || null` on a nullable boolean: `false` collapses to `null`. -/
def jsOrNullBool : Option Bool → Option Bool
  | none => none
  | some b => if b then some true else none

/-- The sparse preference object built by `formatFinalPreferences`.  A
`none` scalar field models a key that was `null` and therefore deleted
from the object; the `bedrooms` and `price` keys hold objects and are
never deleted. -/
structure FinalPrefs where
  location : Option String
  propertyType : Option String
  propertySubtype : Option String
  bedrooms : BedroomRange
  price : PriceRange
  publicTransport : Option Bool
  schools : Option Bool
  timeline : Option String
  hasPreApprovedLoan : Option Bool
deriving DecidableEq, Repr

/-- `formatFinalPreferences` from `conversationState.js` (lines
184-213): every scalar field is passed through `x || null` and `null`
keys are then deleted. -/
def formatFinalPreferences (s : ConvState) : FinalPrefs :=
  { location := jsOrNullStr s.filters.location
    propertyType := jsOrNullStr s.filters.propertyType
    propertySubtype := jsOrNullStr s.filters.propertySubtype
    bedrooms := ⟨jsOrNullNat s.filters.bedrooms.min, jsOrNullNat s.filters.bedrooms.max⟩
    price := ⟨jsOrNullNat s.filters.price.min, jsOrNullNat s.filters.price.max⟩
    publicTransport := jsOrNullBool s.preferences.publicTransport
    schools := jsOrNullBool s.preferences.schools
    timeline := jsOrNullStr s.preferences.timeline
    hasPreApprovedLoan := jsOrNullBool s.preferences.hasPreApprovedLoan }

/-- A character admitted by the class `[^\s@]`. -/
def emailOkChar (c : Char) : Bool :=
  ¬ isJsSpace c ∧ c ≠ '@'

/-- The `EMAIL_REQUEST` test `/^[^\s@]+@[^\s@]+\.[^\s@]+$/.test(input)`.
Since `@` is excluded from every class, the local part must end exactly
at the first `@`; the backtracking over `[^\s@]+\.` amounts to the
existence of a `.` in the domain with non-empty admissible runs on both
sides. -/
def jsEmailTest (s : String) : Bool :=
  let cs := s.data
  let a := cs.takeWhile emailOkChar
  if a = [] then false
  else
    match cs.drop a.length with
    | '@' :: d =>
      (List.range d.length).any (fun i =>
        0 < i ∧ i + 1 < d.length ∧ d.get? i = some '.' ∧
          (d.take i).all emailOkChar ∧ (d.drop (i + 1)).all emailOkChar)
    | _ => false

/-- A character admitted by the class `[a-zA-Z0-9._-]`. -/
def localPartChar (c : Char) : Bool :=
  (c.isAlpha ∧ c.toNat < 128) ∨ c.isDigit ∨ c = '.' ∨ c = '_' ∨ c = '-'

/-- A character admitted by the class `[a-zA-Z0-9.-]`. -/
def domainChar (c : Char) : Bool :=
  (c.isAlpha ∧ c.toNat < 128) ∨ c.isDigit ∨ c = '.' ∨ c = '-'

/-- The `validateInput` email test
`/^[a-zA-Z0-9._-]+@[a-zA-Z0-9.-]+\.[a-zA-Z]{2,6}$/.test(input)`. -/
def cwEmailRegexTest (s : String) : Bool :=
  let cs := s.data
  let a := cs.takeWhile localPartChar
  if a = [] then false
  else
    match cs.drop a.length with
    | '@' :: d =>
      (List.range d.length).any (fun i =>
        0 < i ∧ d.get? i = some '.' ∧ (d.take i).all domainChar ∧
          (let t := d.drop (i + 1)
           2 ≤ t.length ∧ t.length ≤ 6 ∧ t.all (fun c => c.isAlpha ∧ c.toNat < 128)))
    | _ => false

/-- Model of `String.prototype.trim`. -/
def jsTrim (s : String) : String :=
  String.mk (((s.data.dropWhile isJsSpace).reverse.dropWhile isJsSpace).reverse)

/-- Model of `parseInt(input)` (base 10, leading whitespace and an
optional sign allowed, `NaN` as `none`). -/
def jsParseInt (s : String) : Option Int :=
  let cs := s.data.dropWhile isJsSpace
  match cs with
  | '-' :: rest =>
    let ds := digitsPrefix rest
    if ds = [] then none else some (-(parseDigits ds : Int))
  | '+' :: rest =>
    let ds := digitsPrefix rest
    if ds = [] then none else some (parseDigits ds : Int)
  | _ =>
    let ds := digitsPrefix cs
    if ds = [] then none else some (parseDigits ds : Int)

/-- The validation kinds accepted by `validateInput`. -/
inductive InputKind where
  | email
  | location
  | bedrooms
  | other

/-- `validateInput` from `part_002` (lines 98-114).  The `location` and
`bedrooms` cases exist in the source but are never invoked by the form
handler. -/
def validateInput (input : String) : InputKind → Bool
  | .email => cwEmailRegexTest input
  | .location => input ≠ "" && (jsTrim input).length ≥ 3
  | .bedrooms =>
    match jsParseInt input with
    | none => false
    | some n => 0 ≤ n ∧ n ≤ 10
  | .other => true

/-- A chat message: sender, nullable text, optional option buttons and
the hint flag. -/
structure Msg where
  sender : String
  text : Option String
  options : Option (List String) := none
  isHint : Bool := false
deriving DecidableEq, Repr

/-- A plain bot message without options. -/
def botMsg (t : String) : Msg := ⟨"bot", some t, none, false⟩

/-- A bot message offering option buttons. -/
def botMsgOpts (t : String) (opts : List String) : Msg := ⟨"bot", some t, some opts, false⟩

/-- A bot message flagged as a hint. -/
def botHint (t : String) : Msg := ⟨"bot", some t, none, true⟩

/-- The public-transport Yes/No prompt. -/
def transportPrompt : Msg :=
  botMsgOpts "Do you need public transport close to your property?" ["Yes", "No"]

/-- The schools Yes/No prompt. -/
def schoolsPrompt : Msg :=
  botMsgOpts "Do you need any schools close to your property?" ["Yes", "No"]

/-- The four-option timeline prompt. -/
def timelinePrompt : Msg :=
  botMsgOpts "When do you ideally plan to complete the purchase?"
    ["ASAP", "1-3 months", "3-6 months", "Not sure yet"]

/-- The financial-readiness prompt. -/
def finReadinessPrompt : Msg :=
  botMsgOpts
    "We would offer you a special treatment in case you have a pre-approved loan agreement. Do you have one?"
    ["Yes", "No", "Don\x27t prefer to share these details"]

/-- The bedroom-syntax hint text, emitted identically after the
Residential choice and after a failed bedroom parse. -/
def bedroomHintText : String :=
  "You can specify:\n• A single number (e.g., \x273\x27)\n• A range (e.g., \x272-4\x27 or \x272 to 4\x27)\n• Min/max (e.g., \x27min 2\x27 or \x27max 4\x27)\n• \x27No min\x27 or \x27No max\x27 for open-ended ranges\n• \x27Studio\x27 for 0 bedrooms"

/-- The error text for an unparsable bedroom answer. -/
def bedroomsErrorText : String :=
  "I couldn\x27t understand the number of bedrooms. Could you please specify it in one of these formats?"

/-- The loan-agreement viewing hint. -/
def loanHintMsg : Msg :=
  botHint "Please note that you may be requested to show a Pre-Approved Loan Agreement before the viewing of a property."

/-- The email-request prompt of `part_002`. -/
def emailRequestMsg : Msg :=
  botMsg "Please leave with us your email address and we\x27ll come back to you within 2 hours."

/-- The bedroom confirmation phrase built in the `BEDROOMS` case. -/
def bedroomConfirmation (min max : Option Nat) : String :=
  if min = some 0 ∧ max = some 0 then "a studio flat"
  else if min = none ∧ max ≠ none then
    "properties with up to " ++ jsNumToStr max ++ " bedroom" ++
      (if max ≠ some 1 then "s" else "")
  else if min ≠ none ∧ max = none then
    "properties with " ++ jsNumToStr min ++ " or more bedroom" ++
      (if min ≠ some 1 then "s" else "")
  else if min = max then "a " ++ jsNumToStr min ++ "-bedroom property"
  else "properties with " ++ jsNumToStr min ++ " to " ++ jsNumToStr max ++ " bedrooms"

/-- `handleUserResponse` of the canonical widget revision (`part_002`,
lines 121-365): the pure transition on the reducer state, listing the
bot messages the turn emits (both returned messages and direct
`setMessages` appends, in order). -/
def handleUserResponse (s : ConvState) (input : String) : ConvState × List Msg :=
  match s.currentState with
  | .INITIAL =>
    if input = "Yes, please!" then
      if s.filters.existingFilters then
        ({ s with currentState := .CONFIRM_FILTERS },
         [⟨"bot", generateConfirmationMessage s.filters, some ["Confirm", "Edit"], false⟩])
      else
        ({ s with currentState := .EDIT_LOCATION },
         [botMsg "Please enter your preferred location."])
    else
      ({ s with currentState := .COMPLETED },
       [botMsg "Thank you for your time. Feel free to come back if you change your mind!"])
  | .CONFIRM_FILTERS =>
    if input = "Confirm" then
      ({ s with currentState := .PUBLIC_TRANSPORT }, [transportPrompt])
    else if input = "Edit" then
      ({ s with currentState := .EDIT_LOCATION },
       [botMsg "Please enter your preferred location."])
    else (s, [])
  | .EDIT_LOCATION =>
    ({ s with currentState := .PROPERTY_TYPE,
              filters := { s.filters with location := some input } },
     [botMsgOpts "What type of property are you looking for?" propertyTypeLabels])
  | .PROPERTY_TYPE =>
    if input = "Residential" then
      ({ s with currentState := .BEDROOMS,
                filters := { s.filters with propertyType := some input } },
       [botMsg "How many bedrooms are you looking for?", botHint bedroomHintText])
    else
      ({ s with currentState := .PUBLIC_TRANSPORT,
                filters := { s.filters with propertyType := some input } },
       [transportPrompt])
  | .BEDROOMS =>
    let r := extractBedroomNumbers input
    if r.min = none ∧ r.max = none ∧ ¬ jsIncludes (jsToLower input) "studio" then
      (s, [botMsg bedroomsErrorText, botHint bedroomHintText])
    else
      ({ s with currentState := .PUBLIC_TRANSPORT,
                filters := { s.filters with bedrooms := r } },
       [botMsg ("Got it! Looking for " ++ bedroomConfirmation r.min r.max ++ "."),
        transportPrompt])
  | .PUBLIC_TRANSPORT =>
    ({ s with currentState := .SCHOOLS,
              preferences := { s.preferences with publicTransport := some (input = "Yes") } },
     [schoolsPrompt])
  | .SCHOOLS =>
    ({ s with currentState := .TIMELINE,
              preferences := { s.preferences with schools := some (input = "Yes") } },
     [timelinePrompt])
  | .TIMELINE =>
    if input = "ASAP" then
      ({ s with currentState := .FINANCIAL_READINESS,
                preferences := { s.preferences with timeline := some input } },
       [finReadinessPrompt])
    else
      ({ s with currentState := .EMAIL_REQUEST,
                preferences := { s.preferences with timeline := some input } },
       [loanHintMsg, emailRequestMsg])
  | .FINANCIAL_READINESS =>
    ({ s with currentState := .EMAIL_REQUEST }, [loanHintMsg, emailRequestMsg])
  | .EMAIL_REQUEST =>
    if jsEmailTest input then
      ({ s with currentState := .COMPLETED, userEmail := some input }, [])
    else (s, [botMsg "Please enter a valid email address."])
  | .COMPLETED => (s, [])

/-- The `completeChat` dispatch: the finalized sparse preferences plus
the collected email, as passed by `handleCompletedState`. -/
structure FinalizePayload where
  preferences : FinalPrefs
  userEmail : Option String
deriving DecidableEq, Repr

/-- The outcome of processing one user input. -/
structure TurnResult where
  state : ConvState
  prompts : List Msg
  finalize : Option FinalizePayload
deriving DecidableEq, Repr

/-- The acknowledgment shown after a successful `completeChat`. -/
def completionAckMsg : Msg :=
  botMsg "Great! Keep an eye on your inbox—and don\x27t forget your spam folder just in case!\n\nThank you! 😊"

/-- One full turn of the widget: `sendMessage` runs
`handleUserResponse`, after which the `COMPLETED`-state effect
(`handleCompletedState`) fires `completeChat` exactly when the state is
`COMPLETED` and the `hasCompletedRef` latch is still unset, setting the
latch. -/
def submit (s : ConvState) (input : String) : TurnResult :=
  let p := handleUserResponse s input
  if p.1.currentState = .COMPLETED ∧ p.1.hasCompleted = false then
    { state := { p.1 with hasCompleted := true }
      prompts := p.2 ++ [completionAckMsg]
      finalize := some ⟨formatFinalPreferences p.1, p.1.userEmail⟩ }
  else
    { state := p.1, prompts := p.2, finalize := none }

/-- The result of a whole session: the final state and every finalize
payload dispatched along the way. -/
structure SessionResult where
  state : ConvState
  finalizes : List FinalizePayload
deriving DecidableEq, Repr

/-- Run a list of user inputs through `submit`, collecting the
dispatched finalize payloads. -/
def runSession : ConvState → List String → SessionResult
  | s, [] => ⟨s, []⟩
  | s, i :: rest =>
    let t := submit s i
    let r := runSession t.state rest
    ⟨r.state, t.finalize.toList ++ r.finalizes⟩

/-- The conversation states a session can be in: the default initial
state, a seeded one, the states produced by the mount-time
`initializeChat` filter update (which merges the search criteria and
re-asserts `existingFilters: true`), and everything `submit` reaches
from those. -/
inductive Reachable : ConvState → Prop where
  | init : Reachable initialState
  | seeded (f : Filters) : Reachable (createInitialStateWithFilters f)
  | initFilters (s : ConvState) (f : Filters) :
      Reachable s → Reachable { s with filters := { f with existingFilters := true } }
  | step (s : ConvState) (input : String) :
      Reachable s → Reachable (submit s input).state

/-- `isInputEnabled` from `part_002` (lines 505-509). -/
def isInputEnabled (s : ConvState) : Bool :=
  s.currentState = .BEDROOMS || s.currentState = .EMAIL_REQUEST ||
    s.currentState = .EDIT_LOCATION

/-- The form `onSubmit` handler (lines 603-618): the message it passes
to `sendMessage`, if any. -/
def formSubmit (s : ConvState) (userInput : String) (isLoading : Bool) : Option String :=
  if jsTrim userInput ≠ "" ∧ isLoading = false ∧ isInputEnabled s then
    if s.currentState = .EMAIL_REQUEST then
      if validateInput userInput .email then some userInput else none
    else some userInput
  else none

/-- The two ways the rendered UI can produce a machine input: typing
into the form, or clicking one of the option buttons rendered for a bot
message's `options` list (buttons are disabled while loading). -/
inductive UIEvent where
  | formSend (text : String) (isLoading : Bool)
  | optionClick (options : List String) (choice : String) (isLoading : Bool)

/-- The input actually delivered to `sendMessage` by a UI event. -/
def deliveredInput (s : ConvState) : UIEvent → Option String
  | .formSend t l => formSubmit s t l
  | .optionClick opts c l => if c ∈ opts ∧ l = false then some c else none

/-- The register-account prompt of the `ChatWidget.js` revision. -/
def cwRegisterPrompt : Msg :=
  botMsgOpts
    "Please register an account and we shall provide all the available properties that match your requirements."
    ["Register"]

/-- The `FINANCIAL_READINESS` case of the `ChatWidget.js` revision
(`src/chatbot-frontend/src/components/ChatWidget.js`, lines 264-296),
one of the two revisions with the Register terminal branch; it does not
touch the preferences. -/
def cwFinancialReadiness (s : ConvState) (input : String) : ConvState × List Msg :=
  if input = "Yes" then
    ({ s with currentState := .COMPLETED }, [loanHintMsg, cwRegisterPrompt])
  else
    ({ s with currentState := .EMAIL_REQUEST },
     [loanHintMsg,
      botMsg "Where should we send the information on all properties matching your preferences?\n\nPlease leave with us your email address and we\x27ll come back to you within 2 hours."])

/-- The combined loan-hint-and-register message of the early widget
revision embedded in `src/chatbot-frontend/src/App.js`. -/
def appRegisterMsg : Msg :=
  botMsgOpts
    "Please note that you may be requested to show a Pre-Approved Loan Agreement before the viewing of a property.\n\nPlease register an account and we shall provide all the available properties that match your requirements."
    ["Register"]

/-- The `FINANCIAL_READINESS` case of the early widget revision embedded
in `src/chatbot-frontend/src/App.js` (lines 194-213), the other revision
with the Register terminal branch: it stores
`hasPreApprovedLoan = (input === "Yes")` before branching, and on
`"Yes"` emits the single combined hint-and-register message. -/
def appFinancialReadiness (s : ConvState) (input : String) : ConvState × List Msg :=
  let s1 :=
    { s with preferences :=
        { s.preferences with hasPreApprovedLoan := some (input = "Yes") } }
  if input = "Yes" then
    ({ s1 with currentState := .COMPLETED }, [appRegisterMsg])
  else
    ({ s1 with currentState := .EMAIL_REQUEST },
     [botMsg "Where should we send the information on all properties matching your preferences?\n\nPlease leave with us your email address and we\x27ll come back to you within 2 hours."])

def c2Inputs : List String :=
  ["Yes, please!", "Manchester", "Residential", "2-3", "Yes", "No", "1-3 months",
   "user@example.com"]

def c2EditInputs : List String :=
  ["Yes, please!", "Edit", "Manchester", "Residential", "2-3", "Yes", "No", "1-3 months",
   "user@example.com"]

/-- A session state sitting at the financial-readiness question. -/
def frState : ConvState :=
  { initialState with currentState := .FINANCIAL_READINESS }

/-- A session state sitting at the location question. -/
def editLocState : ConvState :=
  { initialState with currentState := .EDIT_LOCATION }

/-- A session state sitting at the bedrooms question. -/
def bedroomsState : ConvState :=
  { initialState with currentState := .BEDROOMS }

/-- `handleUserResponse` never touches the completion latch. -/
theorem handle_hasCompleted (s : ConvState) (input : String) :
    (handleUserResponse s input).1.hasCompleted = s.hasCompleted := by
  obtain ⟨st, f, p, e, h⟩ := s
  cases st <;> simp only [handleUserResponse] <;> (try split_ifs) <;> rfl

/-- `handleUserResponse` never writes the `existingFilters` flag. -/
theorem handle_existingFilters (s : ConvState) (input : String) :
    (handleUserResponse s input).1.filters.existingFilters = s.filters.existingFilters := by
  obtain ⟨st, f, p, e, h⟩ := s
  cases st <;> simp only [handleUserResponse] <;> (try split_ifs) <;> rfl

/-- `submit` never writes the `existingFilters` flag. -/
theorem submit_existingFilters (s : ConvState) (input : String) :
    (submit s input).state.filters.existingFilters = s.filters.existingFilters := by
  simp only [submit]
  split <;> exact handle_existingFilters s input

/-- Every reachable state carries `existingFilters = true`. -/
theorem reachable_existingFilters (s : ConvState) (h : Reachable s) :
    s.filters.existingFilters = true := by
  induction h with
  | init => rfl
  | seeded f => rfl
  | initFilters s f _ _ => rfl
  | step s input _ ih => rw [submit_existingFilters]; exact ih

/-- In the `COMPLETED` state `handleUserResponse` is the identity with
no messages. -/
theorem handle_completed (s : ConvState) (input : String)
    (h : s.currentState = .COMPLETED) : handleUserResponse s input = (s, []) := by
  obtain ⟨st, f, p, e, hc⟩ := s
  cases st <;> first | rfl | exact absurd h (by simp)

/-- After any `submit`, a `COMPLETED` state has the latch set. -/
theorem submit_completed_latched (s : ConvState) (input : String)
    (h : (submit s input).state.currentState = .COMPLETED) :
    (submit s input).state.hasCompleted = true := by
  by_cases hc : ((handleUserResponse s input).1.currentState = .COMPLETED ∧
      (handleUserResponse s input).1.hasCompleted = false)
  · simp only [submit]
    rw [if_pos hc]
  · simp only [submit] at h ⊢
    rw [if_neg hc] at h ⊢
    cases hb : (handleUserResponse s input).1.hasCompleted
    · exact absurd ⟨h, hb⟩ hc
    · rfl

/-- Reachability invariant: a completed state has a set latch. -/
theorem reachable_completed_latched (s : ConvState) (h : Reachable s) :
    s.currentState = .COMPLETED → s.hasCompleted = true := by
  induction h with
  | init => intro hc; exact absurd hc (by simp [initialState])
  | seeded f => intro hc; exact absurd hc (by simp [createInitialStateWithFilters, initialState])
  | initFilters s f _ ih => exact ih
  | step s input _ _ => exact submit_completed_latched s input

/-- Over one session, the number of dispatched finalize payloads is
bounded by the latch budget. -/
theorem runSession_finalizes_le (inputs : List String) (s : ConvState) :
    (runSession s inputs).finalizes.length ≤ if s.hasCompleted then 0 else 1 := by
  induction inputs generalizing s with
  | nil => simp [runSession]
  | cons i rest ih =>
    simp only [runSession, List.length_append]
    by_cases h : ((handleUserResponse s i).1.currentState = .COMPLETED ∧
        (handleUserResponse s i).1.hasCompleted = false)
    · have hs : (submit s i).state.hasCompleted = true := by
        simp only [submit]; rw [if_pos h]
      have hf : (submit s i).finalize.toList.length = 1 := by
        simp only [submit]; rw [if_pos h]; rfl
      have hrest := ih (submit s i).state
      rw [hs] at hrest
      rw [if_pos rfl] at hrest
      have hsf : s.hasCompleted = false := (handle_hasCompleted s i) ▸ h.2
      rw [hf, hsf]
      simp only [Bool.false_eq_true, if_false]
      omega
    · have hs : (submit s i).state.hasCompleted = s.hasCompleted := by
        simp only [submit]
        rw [if_neg h]
        exact handle_hasCompleted s i
      have hf : (submit s i).finalize.toList.length = 0 := by
        simp only [submit]; rw [if_neg h]; rfl
      have hrest := ih (submit s i).state
      rw [hs] at hrest
      rw [hf]
      simpa using hrest

/-- A form submission that delivers a message can only happen at one of
the three text-enabled steps. -/
theorem formSubmit_some_enabled (s : ConvState) (t : String) (l : Bool) (m : String)
    (h : formSubmit s t l = some m) :
    s.currentState = .EDIT_LOCATION ∨ s.currentState = .BEDROOMS ∨
      s.currentState = .EMAIL_REQUEST := by
  unfold formSubmit at h
  split_ifs at h with h1 h2 h3
  all_goals
    have he := h1.2.2
    simp only [isInputEnabled, Bool.or_eq_true, decide_eq_true_eq] at he
    tauto

/-- C1: the finalize event (the `completeChat` dispatch) fires at most
once per session, and `COMPLETED` is absorbing: a further submitted
input produces no prompts, changes no state field and triggers no
finalize. -/
theorem c1_completed_absorbing_finalize_once :
    (∀ inputs : List String, (runSession initialState inputs).finalizes.length ≤ 1) ∧
    (∀ (s : ConvState) (input : String), Reachable s → s.currentState = .COMPLETED →
      submit s input = ⟨s, [], none⟩) := by
  constructor
  · intro inputs
    have h := runSession_finalizes_le inputs initialState
    simpa using h
  · intro s input hr hc
    have hl : s.hasCompleted = true := reachable_completed_latched s hr hc
    have hh : handleUserResponse s input = (s, []) := handle_completed s input hc
    simp only [submit, hh]
    rw [if_neg (by simp [hl])]

/-- Witness for C1 at the early-decline completion. -/
theorem c1_completed_absorbing_finalize_once_witness :
    submit (submit initialState "No, thanks.").state "hello" =
      ⟨(submit initialState "No, thanks.").state, [], none⟩ :=
  c1_completed_absorbing_finalize_once.2 (submit initialState "No, thanks.").state "hello"
    (Reachable.step initialState "No, thanks." Reachable.init) (by decide)

/-- C2 (failing scenario): running the spec's eight-input scenario from
the default initial state dispatches no finalize payload at all and
leaves the machine stuck in `CONFIRM_FILTERS`, because `existingFilters`
is hard-coded `true`; interposing `"Edit"` after `"Yes, please!"` does
produce exactly one finalize, but its payload drops the
`schools = false` preference (the `|| null` normalisation erases
`false`). -/
theorem c2_scenario_stalls_without_finalize :
    (runSession initialState c2Inputs).finalizes = [] ∧
    (runSession initialState c2Inputs).state.currentState = .CONFIRM_FILTERS ∧
    (runSession initialState c2EditInputs).finalizes =
      [⟨{ location := some "Manchester", propertyType := some "Residential",
          propertySubtype := none, bedrooms := ⟨some 2, some 3⟩, price := ⟨none, none⟩,
          publicTransport := some true, schools := none, timeline := some "1-3 months",
          hasPreApprovedLoan := none }, some "user@example.com"⟩] := by decide

/-- C3: the five documented bedroom-extractor examples. -/
theorem c3_bedroom_extractor_examples :
    extractBedroomNumbers "3" = ⟨some 3, some 3⟩ ∧
    extractBedroomNumbers "2-4" = ⟨some 2, some 4⟩ ∧
    extractBedroomNumbers "min 2" = ⟨some 2, none⟩ ∧
    extractBedroomNumbers "studio" = ⟨some 0, some 0⟩ ∧
    extractBedroomNumbers "purple" = ⟨none, none⟩ := by decide

/-- C4: at `BEDROOMS`, an input the extractor cannot parse (and that
does not mention studio) leaves the whole state unchanged and emits the
error prompt followed by the same format-hint prompt, with no
finalize. -/
theorem c4_bedrooms_parse_failure_reprompt :
    ∀ (s : ConvState) (input : String),
      s.currentState = .BEDROOMS →
      extractBedroomNumbers input = ⟨none, none⟩ →
      jsIncludes (jsToLower input) "studio" = false →
      submit s input = ⟨s, [botMsg bedroomsErrorText, botHint bedroomHintText], none⟩ := by
  intro s input hst hext hstu
  obtain ⟨st, f, p, e, hcm⟩ := s
  have h1 : st = ConvStep.BEDROOMS := hst
  subst h1
  simp [submit, handleUserResponse, hext, hstu]

/-- Witness for C4 at the input `"purple"`. -/
theorem c4_bedrooms_parse_failure_reprompt_witness :
    submit bedroomsState "purple" =
      ⟨bedroomsState, [botMsg bedroomsErrorText, botHint bedroomHintText], none⟩ :=
  c4_bedrooms_parse_failure_reprompt bedroomsState "purple" rfl (by decide) (by decide)

/-- C5 (failing behavior): at `EDIT_LOCATION`, the two-character input
`"ab"` would fail the `validateInput` location rule, yet the form
delivers it and the machine stores it as the location and advances to
`PROPERTY_TYPE` — the length check is never invoked. -/
theorem c5_short_location_accepted :
    validateInput "ab" .location = false ∧
    formSubmit editLocState "ab" false = some "ab" ∧
    (submit editLocState "ab").state.filters.location = some "ab" ∧
    (submit editLocState "ab").state.currentState = .PROPERTY_TYPE ∧
    (submit editLocState "ab").prompts =
      [botMsgOpts "What type of property are you looking for?" propertyTypeLabels] := by
  decide

/-- C6 (counterexample): answering `"Yes"` at `FINANCIAL_READINESS` does
not store `hasPreApprovedLoan = true` in the `ChatWidget.js` revision of
the Register branch, and in the canonical `part_002` revision the same
answer leads to the email request instead of completing. -/
theorem c6_register_branch_counterexample :
    (cwFinancialReadiness frState "Yes").1.preferences.hasPreApprovedLoan = none ∧
    (cwFinancialReadiness frState "Yes").1.preferences.hasPreApprovedLoan ≠ some true ∧
    (handleUserResponse frState "Yes").1.currentState = .EMAIL_REQUEST ∧
    (handleUserResponse frState "Yes").2 = [loanHintMsg, emailRequestMsg] := by decide

/-- C6 (amended): at `FINANCIAL_READINESS`, `"Yes"` moves to
`COMPLETED` and bypasses email collection in both revisions that have
the Register branch, with one `Register` option offered — but the
revisions disagree on the rest of the claim: the `App.js` revision
stores `hasPreApprovedLoan = true` and emits the loan-viewing hint and
register request as one combined message, while the `ChatWidget.js`
revision emits the hint plus a separate register prompt and leaves the
preferences (so also `hasPreApprovedLoan`) untouched; neither dispatches
a finalize during this turn, and in the canonical `part_002` revision
the branch does not exist at all. -/
theorem c6_register_branch_amended :
    ∀ s : ConvState, s.currentState = .FINANCIAL_READINESS →
      appFinancialReadiness s "Yes" =
        ({ s with currentState := .COMPLETED,
                  preferences :=
                    { s.preferences with hasPreApprovedLoan := some true } },
         [appRegisterMsg]) ∧
      cwFinancialReadiness s "Yes" =
        ({ s with currentState := .COMPLETED }, [loanHintMsg, cwRegisterPrompt]) ∧
      (cwFinancialReadiness s "Yes").1.preferences = s.preferences := by
  intro s _
  refine ⟨?_, ?_, ?_⟩ <;> simp [appFinancialReadiness, cwFinancialReadiness]

/-- Witness for the amended C6. -/
theorem c6_register_branch_amended_witness :
    appFinancialReadiness frState "Yes" =
      ({ frState with currentState := .COMPLETED,
                      preferences :=
                        { frState.preferences with hasPreApprovedLoan := some true } },
       [appRegisterMsg]) ∧
    cwFinancialReadiness frState "Yes" =
      ({ frState with currentState := .COMPLETED }, [loanHintMsg, cwRegisterPrompt]) :=
  ⟨(c6_register_branch_amended frState rfl).1,
   (c6_register_branch_amended frState rfl).2.1⟩

/-- C7 (counterexample): `"any min 3"` contains the literal
`"any min"`, the `min <N>` pattern matches, and the extractor returns
`min = 3`, not `null` — only `"no min"` is consulted by the guard. -/
theorem c7_no_min_counterexample :
    jsIncludes (jsToLower "any min 3") "any min" = true ∧
    scanMin (jsToLower "any min 3").data = some 3 ∧
    (extractBedroomNumbers "any min 3").min = some 3 ∧
    (extractBedroomNumbers "any min 3").min ≠ none := by decide

/-- C7 (amended): only the literal `"no min"` suppresses a matched
`min <N>` pattern (and only `"no max"` a matched `max <N>` pattern), and
the suppression holds only as long as no range pattern and no
bare-number pattern also set the bound. -/
theorem c7_no_min_suppression_amended :
    ∀ input : String,
      jsIncludes (jsToLower input) "studio" = false →
      scanRange (jsToLower input).data = none →
      matchSingleNumber (jsToLower input).data = none →
      ((jsIncludes (jsToLower input) "no min" = true →
          (extractBedroomNumbers input).min = none) ∧
       (jsIncludes (jsToLower input) "no max" = true →
          (extractBedroomNumbers input).max = none)) := by
  intro input hstu hrange hsingle
  constructor
  · intro hn
    simp [extractBedroomNumbers, hstu, hrange, hsingle, hn]
  · intro hn
    simp [extractBedroomNumbers, hstu, hrange, hsingle, hn]

/-- Witness for the amended C7. -/
theorem c7_no_min_suppression_amended_witness :
    (extractBedroomNumbers "no min max 4").min = none ∧
    (extractBedroomNumbers "no max min 2").max = none :=
  ⟨(c7_no_min_suppression_amended "no min max 4" (by decide) (by decide) (by decide)).1
      (by decide),
   (c7_no_min_suppression_amended "no max min 2" (by decide) (by decide) (by decide)).2
      (by decide)⟩

/-- C8 (counterexample): with `min = 0` and `max = 3` — both set and
unequal — the formatter returns `"up to 3"`, not `"0-3"`: the both-set
branch tests JavaScript truthiness, and `0` is falsy. -/
theorem c8_formatBedrooms_zero_counterexample :
    formatBedrooms (some 0) (some 3) = some "up to 3" ∧
    formatBedrooms (some 0) (some 3) ≠ some "0-3" := by decide

/-- C8 (amended): `"N"` when the bounds are equal; `"N-M"` when both are
set, unequal and nonzero; `"N+"` when only a nonzero min is set;
`"up to M"` when only a nonzero max is set; `null` when neither is set;
and a zero min behaves like an unset one in the non-equal branches. -/
theorem c8_formatBedrooms_amended :
    ∀ a b : Nat,
      formatBedrooms (some a) (some a) = some (toString a) ∧
      (a ≠ b → a ≠ 0 → b ≠ 0 →
        formatBedrooms (some a) (some b) = some (toString a ++ "-" ++ toString b)) ∧
      (a ≠ 0 → formatBedrooms (some a) none = some (toString a ++ "+")) ∧
      (b ≠ 0 → formatBedrooms none (some b) = some ("up to " ++ toString b)) ∧
      formatBedrooms none none = none ∧
      (b ≠ 0 → formatBedrooms (some 0) (some b) = some ("up to " ++ toString b)) ∧
      formatBedrooms (some 0) none = none := by
  intro a b
  refine ⟨?_, fun hne ha hb => ?_, fun ha => ?_, fun hb => ?_, ?_, fun hb => ?_, ?_⟩
  · simp [formatBedrooms, jsNumToStr]
  · simp_all [formatBedrooms, jsNumToStr, jsTruthyNat]
  · simp_all [formatBedrooms, jsNumToStr, jsTruthyNat]
  · simp_all [formatBedrooms, jsNumToStr, jsTruthyNat]
  · simp [formatBedrooms]
  · have hb2 : (0 : Nat) ≠ b := fun h => hb h.symm
    simp_all [formatBedrooms, jsNumToStr, jsTruthyNat]
  · simp [formatBedrooms, jsNumToStr, jsTruthyNat]

/-- Witness for the amended C8. -/
theorem c8_formatBedrooms_amended_witness :
    formatBedrooms (some 2) (some 3) = some "2-3" ∧
    formatBedrooms (some 2) none = some "2+" ∧
    formatBedrooms none (some 3) = some "up to 3" :=
  ⟨(c8_formatBedrooms_amended 2 3).2.1 (by decide) (by decide) (by decide),
   (c8_formatBedrooms_amended 2 3).2.2.1 (by decide),
   (c8_formatBedrooms_amended 2 3).2.2.2.1 (by decide)⟩

/-- C9: every reachable state has `existingFilters = true`, so
`"Yes, please!"` at `INITIAL` always goes to `CONFIRM_FILTERS`, never to
the from-scratch location branch. -/
theorem c9_existingFilters_invariant :
    ∀ s : ConvState, Reachable s →
      s.filters.existingFilters = true ∧
      (s.currentState = .INITIAL →
        (submit s "Yes, please!").state.currentState = .CONFIRM_FILTERS) := by
  intro s hr
  have he := reachable_existingFilters s hr
  refine ⟨he, fun hi => ?_⟩
  obtain ⟨st, f, p, e, hcm⟩ := s
  have h1 : st = ConvStep.INITIAL := hi
  subst h1
  have hf : f.existingFilters = true := he
  simp [submit, handleUserResponse, hf]

/-- Witness for C9 at the default initial state. -/
theorem c9_existingFilters_invariant_witness :
    initialState.filters.existingFilters = true ∧
    (submit initialState "Yes, please!").state.currentState = .CONFIRM_FILTERS :=
  ⟨(c9_existingFilters_invariant initialState Reachable.init).1,
   (c9_existingFilters_invariant initialState Reachable.init).2 rfl⟩

/-- C10: the form delivers free text only at `EDIT_LOCATION`, `BEDROOMS`
and `EMAIL_REQUEST`; at every other step a delivered input can only come
from an option button and equals one of that message's offered
options. -/
theorem c10_free_text_gating :
    (∀ (s : ConvState) (t : String) (l : Bool) (m : String),
        deliveredInput s (.formSend t l) = some m →
        s.currentState = .EDIT_LOCATION ∨ s.currentState = .BEDROOMS ∨
          s.currentState = .EMAIL_REQUEST) ∧
    (∀ (s : ConvState) (ev : UIEvent) (m : String),
        deliveredInput s ev = some m →
        ¬(s.currentState = .EDIT_LOCATION ∨ s.currentState = .BEDROOMS ∨
            s.currentState = .EMAIL_REQUEST) →
        ∃ opts c l, ev = .optionClick opts c l ∧ m = c ∧ c ∈ opts) := by
  constructor
  · intro s t l m h
    exact formSubmit_some_enabled s t l m h
  · intro s ev m h hn
    cases ev with
    | formSend t l => exact absurd (formSubmit_some_enabled s t l m h) hn
    | optionClick opts c l =>
      simp only [deliveredInput] at h
      split_ifs at h with hcond
      exact ⟨opts, c, l, rfl, (Option.some_inj.mp h).symm, hcond.1⟩

/-- Witness for C10: free text delivered at the location step, and an
option click delivered at the `INITIAL` step. -/
theorem c10_free_text_gating_witness :
    (editLocState.currentState = .EDIT_LOCATION ∨ editLocState.currentState = .BEDROOMS ∨
      editLocState.currentState = .EMAIL_REQUEST) ∧
    (∃ opts c l,
      (UIEvent.optionClick ["Yes, please!", "No, thanks."] "No, thanks." false) =
        UIEvent.optionClick opts c l ∧ ("No, thanks." : String) = c ∧ c ∈ opts) :=
  ⟨c10_free_text_gating.1 editLocState "Manchester" false "Manchester" (by decide),
   c10_free_text_gating.2 initialState
     (UIEvent.optionClick ["Yes, please!", "No, thanks."] "No, thanks." false)
     "No, thanks." (by decide) (by decide)⟩

end List4Free
